import Mathlib

/-!
Shallow embedding of the layout-and-rendering engine of the network-viz
library, centred on `NetworkVisualizationV2Component`
(`network-visualization-v2.component.ts`) and `NetworkDataService`
(`network-data.service.ts`).  JavaScript numbers are modelled as `ℚ`,
optional / possibly-`undefined` fields as `Option`, and node identifiers
(which may arrive as numbers or strings) as an explicit sum type.
-/

set_option autoImplicit false

namespace NetworkViz

/-- A raw JavaScript node identifier: the library accepts numbers and strings
(`id: string | number`). -/
inductive NodeId where
| num (n : Int)
| str (s : String)
deriving DecidableEq, Repr

/-- Model of `id.toString()`: the canonical string form of an identifier.  JavaScript
string interpolation of a raw id in warning messages produces the same text. -/
def NodeId.canon : NodeId → String
| .num n => toString n
| .str s => s

/-- A node of the input graph.  Mutable solver fields (`x`, `y`, `vx`, `vy`)
and the pin (`fx`, `fy`) are `Option ℚ`: `none` is JavaScript
`undefined`/`null`.  `id` is `none` when the raw object carries no usable
identifier. -/
structure NetworkNode where
  id : Option NodeId
  label : Option String := none
  group : Option String := none
  size : Option ℚ := none
  shape : Option String := none
  color : Option String := none
  x : Option ℚ := none
  y : Option ℚ := none
  vx : Option ℚ := none
  vy : Option ℚ := none
  fx : Option ℚ := none
  fy : Option ℚ := none
deriving DecidableEq, Repr

/-- A link endpoint as it arrives from the caller: either a primitive id value
or an object reference (of which only the `id` field is ever read via
`typeof link.source === 'object' ? link.source.id : link.source`). -/
inductive LinkEnd where
| ref (i : NodeId)
| obj (i : NodeId)
deriving DecidableEq, Repr

/-- Model of `typeof e === 'object' ? e.id : e` — the raw identifier of an endpoint. -/
def LinkEnd.endId : LinkEnd → NodeId
| .ref i => i
| .obj i => i

/-- A link of the input graph. -/
structure NetworkLink where
  source : LinkEnd
  target : LinkEnd
  value : Option ℚ := none
  width : Option ℚ := none
  style : Option String := none
  color : Option String := none
deriving DecidableEq, Repr

/-- A graph whose `nodes`/`links` collections are present. -/
structure NetworkData where
  nodes : List NetworkNode
  links : List NetworkLink
deriving DecidableEq, Repr

/-- A raw input object whose top-level collections may be absent
(`data.nodes` / `data.links` missing or not arrays). -/
structure RawNetworkData where
  nodes : Option (List NetworkNode)
  links : Option (List NetworkLink)
deriving DecidableEq, Repr

/-- The component's node filter in `validateAndSanitizeData`:
`node.id !== null && node.id !== undefined && node.id !== ''`. -/
def keepNodeId : Option NodeId → Bool
| none => false
| some (.num _) => true
| some (.str s) => !(s == "")

/-- The id-normalisation applied to each surviving node:
`node.id = node.id.toString()`. -/
def normalizeNode (n : NetworkNode) : NetworkNode :=
  { n with id := n.id.map (fun i => NodeId.str i.canon) }

/-- Does both endpoints' canonical id occur among the surviving node keys
(`nodeIdMap.has(sourceId) && nodeIdMap.has(targetId)`)? -/
def linkResolves (keys : List String) (l : NetworkLink) : Bool :=
  decide (l.source.endId.canon ∈ keys) && decide (l.target.endId.canon ∈ keys)

/-- Surviving links are rewritten so that `source`/`target` hold the canonical
string id (`source: (...).toString()`). -/
def normalizeLink (l : NetworkLink) : NetworkLink :=
  { l with
      source := LinkEnd.ref (.str l.source.endId.canon)
      target := LinkEnd.ref (.str l.target.endId.canon) }

/-- Model of `validateAndSanitizeData` (component, lines 811–866): drop nodes without a
usable id, coerce surviving ids to their canonical string, drop links whose
source or target does not resolve (by canonical string) to a surviving node,
and normalise surviving links' endpoints to string ids. -/
def validateAndSanitizeData (data : NetworkData) : NetworkData :=
  let validNodes := data.nodes.filter (fun n => keepNodeId n.id)
  let keys := validNodes.filterMap (fun n => n.id.map NodeId.canon)
  let validLinks := (data.links.filter (linkResolves keys)).map normalizeLink
  { nodes := validNodes.map normalizeNode, links := validLinks }

/-- The raw identifiers present in a graph's node collection. -/
def nodeIdSet (d : NetworkData) : List NodeId :=
  d.nodes.filterMap (fun n => n.id)

/-- Model of `setupSimulation`'s per-node preparation (component, lines 889–894):
`node.id = node.id.toString()`, and a missing coordinate is initialised with
`Math.random() * width` (resp. `height`).  `Math.random()` is modelled as an
arbitrary stream `r` of values in `[0, 1)`; the node at list index `i` draws
`r (2*i)` for `x` and `r (2*i+1)` for `y`. -/
def simPrepNode (w h : ℚ) (r : Nat → ℚ) (i : Nat) (n : NetworkNode) : NetworkNode :=
  { n with
      id := n.id.map (fun j => NodeId.str j.canon)
      x := some (n.x.getD (r (2 * i) * w))
      y := some (n.y.getD (r (2 * i + 1) * h)) }

def simPrepNodes (w h : ℚ) (r : Nat → ℚ) : Nat → List NetworkNode → List NetworkNode
| _, [] => []
| i, n :: rest => simPrepNode w h r i n :: simPrepNodes w h r (i + 1) rest

/-- Model of `setupSimulation`'s link pass (component, lines 897–913): a link is kept
only when both endpoints' canonical ids occur among the prepared nodes' ids,
and surviving links are rewritten to canonical string endpoints.  The result
is the data handed to `d3.forceSimulation` / `d3.forceLink`. -/
def simPrep (w h : ℚ) (r : Nat → ℚ) (data : NetworkData) : NetworkData :=
  let nodes := simPrepNodes w h r 0 data.nodes
  let ids := nodes.filterMap (fun n => n.id.map NodeId.canon)
  let validLinks := (data.links.filter (linkResolves ids)).map normalizeLink
  { nodes := nodes, links := validLinks }

/-- Model of `setupSimulation` returns early (creating no simulation) when the node
list is empty; otherwise the simulation is built from `simPrep`. -/
def solverInput (w h : ℚ) (r : Nat → ℚ) (data : NetworkData) : Option NetworkData :=
  if data.nodes.isEmpty then none else some (simPrep w h r data)

/-! ## NetworkDataService.validateNetworkData -/

/-- Model of `ValidationResult` of the data service. -/
structure ValidationResult where
  isValid : Bool
  errors : List String
  warnings : List String
deriving DecidableEq, Repr

/-- Model of `isValidNodeShape` (data service). -/
def isValidNodeShape (s : String) : Bool :=
  decide (s ∈ ["circle", "square", "triangle", "diamond", "star", "hexagon"])

/-- Model of `isValidLineStyle` (data service). -/
def isValidLineStyle (s : String) : Bool :=
  decide (s ∈ ["solid", "dashed", "dotted"])

def isHexDigit (c : Char) : Bool :=
  c.isDigit || ('A' ≤ c && c ≤ 'F') || ('a' ≤ c && c ≤ 'f')

/-- A JavaScript `\w` word character: `[A-Za-z0-9_]`. -/
def isWordChar (c : Char) : Bool :=
  c.isAlphanum || c == '_'

/-- Model of `isValidColor` (data service): the anchored regular expression
`^(#[0-9A-Fa-f]\x7b3,8\x7d|rgb\(|rgba\(|hsl\(|hsla\(|\w+)$`. -/
def isValidColor (c : String) : Bool :=
  (c.startsWith "#" &&
    (let rest := c.drop 1
     decide (3 ≤ rest.length) && decide (rest.length ≤ 8) && rest.all isHexDigit))
  || c == "rgb(" || c == "rgba(" || c == "hsl(" || c == "hsla("
  || (!(c == "") && c.all isWordChar)

/-- The per-node property warnings (size, shape, color) of the data service's
node loop, in source order. -/
def nodeWarnings (n : NetworkNode) (nid : NodeId) : List String :=
  let c := nid.canon
  (match n.size with
   | some s => if s ≤ 0 then [s!"Invalid size for node {c}: must be a positive number"] else []
   | none => []) ++
  (match n.shape with
   | some sh => if !(sh == "") && !isValidNodeShape sh then
       [s!"Invalid shape for node {c}: {sh}"] else []
   | none => []) ++
  (match n.color with
   | some col => if !(col == "") && !isValidColor col then
       [s!"Invalid color for node {c}: {col}"] else []
   | none => [])

/-- The node loop of `validateNetworkData` (data service, lines 42–67): walks
the node list with its index, accumulating the `nodeIds` set, error messages
and warnings.  A node without a usable id yields `Invalid node at index i`;
a node whose raw id is already in the set yields `Duplicate node ID` (the set
compares raw identifiers, with no normalisation). -/
def validateNodesLoop : Nat → List NodeId → List String → List String →
    List NetworkNode → List NodeId × List String × List String
| _, seen, errs, warns, [] => (seen, errs, warns)
| i, seen, errs, warns, n :: rest =>
  match n.id with
  | none => validateNodesLoop (i + 1) seen (errs ++ [s!"Invalid node at index {i}"]) warns rest
  | some nid =>
    let c := nid.canon
    let seen2 := if nid ∈ seen then seen else seen ++ [nid]
    let errs2 := if nid ∈ seen then errs ++ [s!"Duplicate node ID: {c}"] else errs
    validateNodesLoop (i + 1) seen2 errs2 (warns ++ nodeWarnings n nid) rest

/-- The per-link property warnings (value, width, style, color) of the data
service's link loop, in source order. -/
def linkWarnings (i : Nat) (l : NetworkLink) : List String :=
  (match l.value with
   | some v => if v < 0 then [s!"Invalid value for link {i}: must be a non-negative number"] else []
   | none => []) ++
  (match l.width with
   | some wd => if wd ≤ 0 then [s!"Invalid width for link {i}: must be a positive number"] else []
   | none => []) ++
  (match l.style with
   | some st => if !(st == "") && !isValidLineStyle st then
       [s!"Invalid style for link {i}: {st}"] else []
   | none => []) ++
  (match l.color with
   | some col => if !(col == "") && !isValidColor col then
       [s!"Invalid color for link {i}: {col}"] else []
   | none => [])

/-- The link loop of `validateNetworkData` (data service, lines 70–107): an
endpoint whose raw id is not in the `nodeIds` set yields a
`references non-existent … node` **error**; a self-referencing link yields a
warning.  (Endpoints are always present in this model, so the
`Invalid link at index` branch for `null` endpoints cannot fire.) -/
def validateLinksLoop (seen : List NodeId) : Nat → List String → List String →
    List NetworkLink → List String × List String
| _, errs, warns, [] => (errs, warns)
| i, errs, warns, l :: rest =>
  let sId := l.source.endId
  let tId := l.target.endId
  let sc := sId.canon
  let tc := tId.canon
  let errs1 := errs ++
    (if sId ∈ seen then [] else [s!"Link {i} references non-existent source node: {sc}"])
  let errs2 := errs1 ++
    (if tId ∈ seen then [] else [s!"Link {i} references non-existent target node: {tc}"])
  let warns1 := warns ++ (if sId = tId then [s!"Self-referencing link at index {i}"] else [])
  validateLinksLoop seen (i + 1) errs2 (warns1 ++ linkWarnings i l) rest

/-- The body of `validateNetworkData` once both collections are present. -/
def validateCore (ns : List NetworkNode) (ls : List NetworkLink) : ValidationResult :=
  let nodeRes := validateNodesLoop 0 [] [] [] ns
  let linkRes := validateLinksLoop nodeRes.1 0 nodeRes.2.1 nodeRes.2.2 ls
  let nn := ns.length
  let ln := ls.length
  let warns :=
    linkRes.2 ++
    (if nn > 1000 then [s!"Large dataset: {nn} nodes may impact performance"] else []) ++
    (if ln > 5000 then [s!"Large dataset: {ln} links may impact performance"] else [])
  { isValid := linkRes.1.isEmpty, errors := linkRes.1, warnings := warns }

/-- Model of `NetworkDataService.validateNetworkData` (data service, lines 19–123).
`none` input models a missing/falsy `data` argument; a missing collection
yields the corresponding `must be an array` structural error and stops. -/
def validateNetworkData : Option RawNetworkData → ValidationResult
| none => ⟨false, ["Data is required"], []⟩
| some ⟨none, none⟩ => ⟨false, ["Nodes must be an array", "Links must be an array"], []⟩
| some ⟨none, some _⟩ => ⟨false, ["Nodes must be an array"], []⟩
| some ⟨some _, none⟩ => ⟨false, ["Links must be an array"], []⟩
| some ⟨some ns, some ls⟩ => validateCore ns ls

/-! ## Component lifecycle: initialisation, data/config updates, error state -/

/-- The reactive state of the component that the claims observe: the error
signal (`errorSignal`), the node/link count signals, and whether a render
pass has completed. -/
structure CompState where
  error : Option String := none
  nodeCount : Nat := 0
  linkCount : Nat := 0
  rendered : Bool := false
deriving DecidableEq, Repr

/-- Model of `handleError` (component, lines 791–795): set the error signal. -/
def handleError (st : CompState) (msg : String) : CompState :=
  { st with error := some msg }

/-- Model of `clearError` (component, lines 388–391): reset the error signal. -/
def clearError (st : CompState) : CompState :=
  { st with error := none }

/-- Model of `render` (component, lines 512–533): sanitize the data, set up the
simulation with it, and draw.  Returns the new state together with the link
list handed to the force simulation (empty when `setupSimulation` returned
early).  Nothing in this pass writes the error signal on success. -/
def renderStep (w h : ℚ) (r : Nat → ℚ) (st : CompState) (data : NetworkData) :
    CompState × List NetworkLink :=
  let clean := validateAndSanitizeData data
  ({ st with rendered := true }, ((solverInput w h r clean).map (fun d => d.links)).getD [])

/-- Model of `updateData` (component, lines 753–767): re-validate through the data
service; on failure set the error signal to the joined error list and stop,
otherwise refresh the counts and re-render. -/
def updateData (w h : ℚ) (r : Nat → ℚ) (st : CompState) (d : RawNetworkData) :
    CompState × List NetworkLink :=
  let v := validateNetworkData (some d)
  if !v.isValid then
    ({ st with error := some (String.intercalate ", " v.errors) }, [])
  else
    let ns := d.nodes.getD []
    let ls := d.links.getD []
    renderStep w h r { st with nodeCount := ns.length, linkCount := ls.length } ⟨ns, ls⟩

/-- Model of `updateConfig` (component, lines 769–775): just re-render. -/
def updateConfig (w h : ℚ) (r : Nat → ℚ) (st : CompState) (data : NetworkData) :
    CompState × List NetworkLink :=
  renderStep w h r st data

/-- Model of `initializeVisualization` (component, lines 961–996): a missing top-level
structure throws `Invalid data structure…`; a data-service validation with a
non-empty error list throws `Data validation failed: …`; both throws are
caught by the surrounding handler, which surfaces the message as the error
state, so no render happens and no links reach the solver.  Otherwise the
counts are set and a render pass runs. -/
def initializeVisualization (w h : ℚ) (r : Nat → ℚ) (data : Option RawNetworkData) :
    CompState × List NetworkLink :=
  match data with
  | none => (handleError {} "Invalid data structure: nodes and links arrays are required", [])
  | some d =>
    if d.nodes.isNone || d.links.isNone then
      (handleError {} "Invalid data structure: nodes and links arrays are required", [])
    else
      let v := validateNetworkData (some d)
      if !v.errors.isEmpty then
        let j := String.intercalate ", " v.errors
        (handleError {} s!"Data validation failed: {j}", [])
      else
        let ns := d.nodes.getD []
        let ls := d.links.getD []
        renderStep w h r { nodeCount := ns.length, linkCount := ls.length } ⟨ns, ls⟩

/-! ## Scene synchroniser: keyed join vs position-only tick updates -/

/-- JavaScript `v || 0`: a missing (or zero) coordinate renders as `0`. -/
def posOr0 (o : Option ℚ) : ℚ := o.getD 0

/-- A rendered node entry: the SVG group created by the enter join, carrying
its data-join key (`d.id.toString()`), the bound node datum (the same object
the simulation mutates), its `transform` attribute, and its join-applied
style attributes (collapsed to one field). -/
structure NodeEntry where
  key : String
  datum : NetworkNode
  transform : ℚ × ℚ
  style : String
deriving DecidableEq, Repr

/-- A rendered link entry: the SVG line, its bound source/target node data
(after `d3.forceLink` resolves endpoints to node objects), its endpoint
coordinate attributes `x1 y1`/`x2 y2`, and its join-applied style. -/
structure LinkEntry where
  sourceDatum : NetworkNode
  targetDatum : NetworkNode
  p1 : ℚ × ℚ
  p2 : ℚ × ℚ
  style : String
deriving DecidableEq, Repr

/-- The rendered scene: the current node and link entries. -/
structure Scene where
  nodeEntries : List NodeEntry
  linkEntries : List LinkEntry
deriving DecidableEq, Repr

/-- Model of `updatePositions` (component, lines 647–678): for every existing entry,
set the position attributes from the bound (simulation-mutated) data —
`translate(d.x||0, d.y||0)` for nodes, `x1/y1/x2/y2` for links.  No data
join, no enter, no exit. -/
def updatePositions (s : Scene) : Scene :=
  { nodeEntries := s.nodeEntries.map (fun e =>
      { e with transform := (posOr0 e.datum.x, posOr0 e.datum.y) })
    linkEntries := s.linkEntries.map (fun e =>
      { e with
          p1 := (posOr0 e.sourceDatum.x, posOr0 e.sourceDatum.y)
          p2 := (posOr0 e.targetDatum.x, posOr0 e.targetDatum.y) }) }

/-- The data-join key of a node: `d.id.toString()` (validated data always
carries an id; the default is never reached on the render path). -/
def nodeKey (n : NetworkNode) : String :=
  (n.id.map NodeId.canon).getD "undefined"

/-- Model of `renderNodes`'s keyed join (component, lines 439–488): entries whose key
is absent from the new data are removed (`exit().remove()`), new keys get a
freshly created entry, and surviving keys keep their element with the datum
re-bound and styles re-applied. -/
def renderNodesJoin (defStyle : String) (s : Scene) (ns : List NetworkNode) : Scene :=
  { s with nodeEntries := ns.map (fun n =>
      match s.nodeEntries.find? (fun e => e.key == nodeKey n) with
      | some e => { e with datum := n, style := defStyle }
      | none => { key := nodeKey n, datum := n, transform := (0, 0), style := defStyle }) }

/-- The two ways the scene is written: the simulation's tick callback (which
runs `updatePositions`, component lines 941–944) and a data/config change
(which re-runs `render`, hence the keyed join). -/
inductive RenderEvent where
| tick
| dataChange (d : NetworkData)

/-- Dispatch of scene writes: `simulation.on('tick', () => updatePositions())`
versus the join on data change. -/
def sceneStep (defStyle : String) (s : Scene) : RenderEvent → Scene
| .tick => updatePositions s
| .dataChange d => renderNodesJoin defStyle s d.nodes

/-! ## Layout solver integration step and drag pinning -/

/-- Modelled from the spec: the force-integration step of the layout solver
lives in the `d3-force` dependency, not in this repository's sources.  Per
spec §4.2, each tick adds the computed forces to a node's velocity, applies
the velocity-decay damping, and integrates the position, while a pinned
coordinate is never touched by the integration: the position is held at the
pin and the velocity bookkeeping around it is skipped (velocity reset to
zero).  `f` is the net force accumulated on this node during the tick. -/
def tickNode (vd : ℚ) (f : ℚ × ℚ) (n : NetworkNode) : NetworkNode :=
  let vx1 := (n.vx.getD 0 + f.1) * vd
  let vy1 := (n.vy.getD 0 + f.2) * vd
  let xr := match n.fx with
    | none => (n.x.getD 0 + vx1, vx1)
    | some px => (px, 0)
  let yr := match n.fy with
    | none => (n.y.getD 0 + vy1, vy1)
    | some py => (py, 0)
  { n with x := some xr.1, vx := some xr.2, y := some yr.1, vy := some yr.2 }

/-- Run one integration step per force in the list (one list entry per tick;
forces may differ from tick to tick). -/
def runTicks (vd : ℚ) : List (ℚ × ℚ) → NetworkNode → NetworkNode
| [], n => n
| f :: rest, n => runTicks vd rest (tickNode vd f n)

/-- The drag `start` handler (component, lines 626–631): pin the node at its
current position (`d.fx = d.x; d.fy = d.y`; the `alphaTarget` reheat is not
modelled). -/
def dragStart (n : NetworkNode) : NetworkNode :=
  { n with fx := n.x, fy := n.y }

/-- The drag `drag` handler (component, lines 632–636): move the pin to the
pointer position (`d.fx = event.x; d.fy = event.y`). -/
def dragMove (ex ey : ℚ) (n : NetworkNode) : NetworkNode :=
  { n with fx := some ex, fy := some ey }

/-- The drag `end` handler (component, lines 637–642): release the pin
(`d.fx = null; d.fy = null`). -/
def dragEnd (n : NetworkNode) : NetworkNode :=
  { n with fx := none, fy := none }

/-! ## Zoom -/

/-- The zoom options recognised by the configuration interface
(`ZoomConfig` in `network-visualization.interfaces.ts`). -/
structure ZoomConfig where
  minZoom : Option ℚ := none
  maxZoom : Option ℚ := none
deriving DecidableEq, Repr

/-- The slice of `NetworkVisualizationConfig` relevant to zooming. -/
structure VizConfig where
  zoomConfig : Option ZoomConfig := none
deriving DecidableEq, Repr

/-- Model of `setupZoom` (component, lines 414–421): the scale extent handed to
`d3.zoom().scaleExtent([0.1, 10])`.  The configuration is not consulted. -/
def setupZoomExtent (_config : VizConfig) : ℚ × ℚ := (1/10, 10)

/-- Modelled from the spec: the clamping of the zoom scale is performed by
the `d3-zoom` dependency, not by code in this repository.  `scaleBy`
multiplies the current scale by the factor and the behaviour constrains the
result to the configured scale extent (clamped, never rejected). -/
def scaleBy (extent : ℚ × ℚ) (k factor : ℚ) : ℚ :=
  max extent.1 (min extent.2 (k * factor))

/-- Model of `onZoomIn` (component, lines 303–309): `zoom.scaleBy` with factor `1.5`. -/
def onZoomIn (cfg : VizConfig) (k : ℚ) : ℚ :=
  scaleBy (setupZoomExtent cfg) k (3/2)

/-- Model of `onZoomOut` (component, lines 311–317): `zoom.scaleBy` with factor
`1 / 1.5`. -/
def onZoomOut (cfg : VizConfig) (k : ℚ) : ℚ :=
  scaleBy (setupZoomExtent cfg) k (2/3)

/-! ## View transform and fitToView -/

/-- A d3 zoom transform: scale `k` and translation `(tx, ty)`. -/
structure ViewTransform where
  k : ℚ
  tx : ℚ
  ty : ℚ
deriving DecidableEq, Repr

/-- Model of `d3.zoomIdentity`. -/
def zoomIdentityT : ViewTransform := ⟨1, 0, 0⟩

/-- Model of `transform.scale(s)` of a d3 zoom transform. -/
def ViewTransform.scaleT (t : ViewTransform) (s : ℚ) : ViewTransform :=
  ⟨t.k * s, t.tx, t.ty⟩

/-- Model of `transform.translate(dx, dy)` of a d3 zoom transform. -/
def ViewTransform.translateT (t : ViewTransform) (dx dy : ℚ) : ViewTransform :=
  ⟨t.k, t.tx + t.k * dx, t.ty + t.k * dy⟩

/-- Model of `transform.apply(p)`: the screen point of a logical point. -/
def ViewTransform.applyT (t : ViewTransform) (p : ℚ × ℚ) : ℚ × ℚ :=
  (t.tx + t.k * p.1, t.ty + t.k * p.2)

/-- The nodes `fitToView` keeps: those with numeric, non-NaN `x` and `y`
(component, lines 698–701). -/
def positionedPoints (ns : List NetworkNode) : List (ℚ × ℚ) :=
  ns.filterMap (fun n =>
    match n.x, n.y with
    | some x, some y => some (x, y)
    | _, _ => none)

/-- The bounding box (`minX, maxX, minY, maxY`) of a point list; `none` when
the list is empty (the `nodes.length === 0` early return). -/
def bboxOf : List (ℚ × ℚ) → Option (ℚ × ℚ × ℚ × ℚ)
| [] => none
| p :: ps =>
  some ((ps.map Prod.fst).foldl min p.1,
        (ps.map Prod.fst).foldl max p.1,
        (ps.map Prod.snd).foldl min p.2,
        (ps.map Prod.snd).foldl max p.2)

/-- Model of `fitToView` (component, lines 697–733): no positioned nodes or a
degenerate bounding box (zero width or zero height) leave the current
transform unchanged; otherwise the scale is
`min((w-2*50)/bw, (h-2*50)/bh, 2)` and the transform is
`zoomIdentity.translate(w/2, h/2).scale(scale).translate(-cx, -cy)`. -/
def fitToView (w h : ℚ) (cur : ViewTransform) (ns : List NetworkNode) : ViewTransform :=
  match bboxOf (positionedPoints ns) with
  | none => cur
  | some (minX, maxX, minY, maxY) =>
    if maxX - minX = 0 ∨ maxY - minY = 0 then cur
    else
      let padding : ℚ := 50
      let scale := min (min ((w - padding * 2) / (maxX - minX))
                            ((h - padding * 2) / (maxY - minY))) 2
      let cx := (minX + maxX) / 2
      let cy := (minY + maxY) / 2
      ((zoomIdentityT.translateT (w / 2) (h / 2)).scaleT scale).translateT (-cx) (-cy)

/-! ## Concrete fixtures used by counterexamples and witnesses -/

/-- A node whose raw id is the number `1`. -/
def nodeNum1 : NetworkNode := { id := some (.num 1) }

/-- A node whose raw id is the string `"1"`. -/
def nodeStr1 : NetworkNode := { id := some (.str "1") }

/-- The spec's scenario link `{source: 1, target: 99}`. -/
def linkDangling : NetworkLink := { source := .ref (.num 1), target := .ref (.num 99) }

/-- The spec's scenario graph with a dangling link and no node `99`. -/
def dataDangling : RawNetworkData := ⟨some [nodeNum1], some [linkDangling]⟩

/-- A one-node, self-link graph on which validation keeps everything. -/
def dataSelf : NetworkData := ⟨[nodeNum1], [{ source := .ref (.num 1), target := .ref (.num 1) }]⟩

/-! ## Shared lemmas -/

theorem canonOfId_normalizeNode (n : NetworkNode) :
    (normalizeNode n).id.map NodeId.canon = n.id.map NodeId.canon := by
  cases h : n.id <;> simp [normalizeNode, h, NodeId.canon]

theorem canonOfId_simPrepNode (w h : ℚ) (r : Nat → ℚ) (i : Nat) (n : NetworkNode) :
    (simPrepNode w h r i n).id.map NodeId.canon = n.id.map NodeId.canon := by
  cases hid : n.id <;> simp [simPrepNode, hid, NodeId.canon]

theorem filterMap_canon_simPrepNodes (w h : ℚ) (r : Nat → ℚ) :
    ∀ (ns : List NetworkNode) (i : Nat),
      (simPrepNodes w h r i ns).filterMap (fun n => n.id.map NodeId.canon) =
        ns.filterMap (fun n => n.id.map NodeId.canon)
  | [], _ => rfl
  | n :: rest, i => by
    simp only [simPrepNodes, List.filterMap_cons, canonOfId_simPrepNode,
      filterMap_canon_simPrepNodes w h r rest (i + 1)]

theorem filterMap_canon_map_normalize (ns : List NetworkNode) :
    (ns.map normalizeNode).filterMap (fun n => n.id.map NodeId.canon) =
      ns.filterMap (fun n => n.id.map NodeId.canon) := by
  rw [List.filterMap_map]
  exact List.filterMap_congr (fun n _ => canonOfId_normalizeNode n)

theorem normalizeLink_idem (l : NetworkLink) : normalizeLink (normalizeLink l) = normalizeLink l := rfl

theorem linkResolves_normalizeLink (keys : List String) (l : NetworkLink) :
    linkResolves keys (normalizeLink l) = linkResolves keys l := rfl

theorem keepNodeId_isSome {o : Option NodeId} (h : keepNodeId o = true) : ∃ i, o = some i := by
  cases o with
  | none => simp [keepNodeId] at h
  | some i => exact ⟨i, rfl⟩

/-- Membership in the surviving node-key list unfolds to a surviving node
with that canonical id. -/
theorem mem_vas_keys {data : NetworkData} {c : String}
    (hc : c ∈ (data.nodes.filter (fun n => keepNodeId n.id)).filterMap
        (fun n => n.id.map NodeId.canon)) :
    ∃ m ∈ (validateAndSanitizeData data).nodes, m.id = some (NodeId.str c) := by
  rcases List.mem_filterMap.1 hc with ⟨n, hn, hid⟩
  rcases Option.map_eq_some'.1 hid with ⟨i, hi, hci⟩
  refine ⟨normalizeNode n, ?_, ?_⟩
  · exact List.mem_map.2 ⟨n, hn, rfl⟩
  · simp [normalizeNode, hi, hci]

/-- Claim C1 (component `validateAndSanitizeData` and `setupSimulation`):
every link surviving validation has both endpoints among the surviving node
ids, and the solver-side re-validation in `setupSimulation` then drops
nothing — the force simulation receives exactly the validated links. -/
theorem C1_no_dangling_links_reach_solver (data : NetworkData) (w h : ℚ) (r : Nat → ℚ) :
    (∀ l ∈ (validateAndSanitizeData data).links,
      l.source.endId ∈ nodeIdSet (validateAndSanitizeData data) ∧
      l.target.endId ∈ nodeIdSet (validateAndSanitizeData data)) ∧
    (simPrep w h r (validateAndSanitizeData data)).links =
      (validateAndSanitizeData data).links := by
  constructor
  · intro l hl
    rcases List.mem_map.1 hl with ⟨l0, hl0, rfl⟩
    rcases List.mem_filter.1 hl0 with ⟨-, hres⟩
    rw [linkResolves, Bool.and_eq_true] at hres
    have hsrc' := of_decide_eq_true hres.1
    have htgt' := of_decide_eq_true hres.2
    constructor
    · rcases mem_vas_keys hsrc' with ⟨m, hm, hmid⟩
      exact List.mem_filterMap.2 ⟨m, hm, by simp [normalizeLink, LinkEnd.endId, hmid]⟩
    · rcases mem_vas_keys htgt' with ⟨m, hm, hmid⟩
      exact List.mem_filterMap.2 ⟨m, hm, by simp [normalizeLink, LinkEnd.endId, hmid]⟩
  · have hids :
        (simPrepNodes w h r 0 (validateAndSanitizeData data).nodes).filterMap
            (fun n => n.id.map NodeId.canon) =
          (data.nodes.filter (fun n => keepNodeId n.id)).filterMap
            (fun n => n.id.map NodeId.canon) := by
      rw [filterMap_canon_simPrepNodes]
      exact filterMap_canon_map_normalize _
    have hall : ∀ l ∈ (validateAndSanitizeData data).links,
        linkResolves ((simPrepNodes w h r 0 (validateAndSanitizeData data).nodes).filterMap
          (fun n => n.id.map NodeId.canon)) l = true := by
      intro l hl
      rcases List.mem_map.1 hl with ⟨l0, hl0, rfl⟩
      rcases List.mem_filter.1 hl0 with ⟨-, hres⟩
      rw [hids, linkResolves_normalizeLink]
      exact hres
    have hfix : ∀ l ∈ (validateAndSanitizeData data).links, normalizeLink l = l := by
      intro l hl
      rcases List.mem_map.1 hl with ⟨l0, _, rfl⟩
      exact normalizeLink_idem l0
    show ((validateAndSanitizeData data).links.filter _).map normalizeLink = _
    rw [List.filter_eq_self.2 hall]
    calc (validateAndSanitizeData data).links.map normalizeLink
        = (validateAndSanitizeData data).links.map id := List.map_congr_left hfix
      _ = (validateAndSanitizeData data).links := List.map_id _

/-- The canonical form of `dataSelf`'s link after validation. -/
def linkSelfNorm : NetworkLink := { source := .ref (.str "1"), target := .ref (.str "1") }

/-- Witness for C1 at the concrete one-node graph with a self link. -/
theorem C1_no_dangling_links_reach_solver_witness :
    linkSelfNorm.source.endId ∈ nodeIdSet (validateAndSanitizeData dataSelf) ∧
    linkSelfNorm.target.endId ∈ nodeIdSet (validateAndSanitizeData dataSelf) :=
  (C1_no_dangling_links_reach_solver dataSelf 800 600 (fun _ => 0)).1 linkSelfNorm (by decide)

/-- Claim C4 (component `updatePositions` and the tick registration in
`setupSimulation`): a solver tick runs only the position-update pass, which
keeps every existing visual entry — same keys, same bound data, same
join-applied styles, same counts — and touches only the position
attributes; it never runs the keyed create/remove join. -/
theorem C4_tick_never_creates_or_removes_entries (defStyle : String) (s : Scene) :
    ((sceneStep defStyle s .tick).nodeEntries.map (fun e => (e.key, e.datum, e.style)) =
      s.nodeEntries.map (fun e => (e.key, e.datum, e.style))) ∧
    ((sceneStep defStyle s .tick).linkEntries.map
        (fun e => (e.sourceDatum, e.targetDatum, e.style)) =
      s.linkEntries.map (fun e => (e.sourceDatum, e.targetDatum, e.style))) ∧
    (sceneStep defStyle s .tick).nodeEntries.length = s.nodeEntries.length ∧
    (sceneStep defStyle s .tick).linkEntries.length = s.linkEntries.length := by
  simp [sceneStep, updatePositions, List.map_map, Function.comp]

theorem tickNode_pinned_x (vd : ℚ) (f : ℚ × ℚ) {n : NetworkNode} {px : ℚ}
    (hfx : n.fx = some px) : (tickNode vd f n).x = some px ∧ (tickNode vd f n).fx = some px := by
  simp [tickNode, hfx]

theorem tickNode_pinned_y (vd : ℚ) (f : ℚ × ℚ) {n : NetworkNode} {py : ℚ}
    (hfy : n.fy = some py) : (tickNode vd f n).y = some py ∧ (tickNode vd f n).fy = some py := by
  simp [tickNode, hfy]

/-- Once a node sits at its pin, any number of further ticks (with arbitrary
forces) leave its position and pin unchanged. -/
theorem runTicks_pinned (vd px py : ℚ) :
    ∀ (fsl : List (ℚ × ℚ)) (n : NetworkNode),
      n.fx = some px → n.fy = some py → n.x = some px → n.y = some py →
      (runTicks vd fsl n).x = some px ∧ (runTicks vd fsl n).y = some py
  | [], n => fun _ _ hx hy => ⟨hx, hy⟩
  | f :: rest, n => fun hfx hfy _ _ => by
    have hx := tickNode_pinned_x vd f hfx
    have hy := tickNode_pinned_y vd f hfy
    exact runTicks_pinned vd px py rest (tickNode vd f n) hx.2 hy.2 hx.1 hy.1

/-- Claim C5 (component drag handlers; integration step modelled from spec
§4.2): after the drag handler moves the pin of node `n` to `(ex, ey)`, every
following tick leaves its position at exactly `(ex, ey)`, while an unpinned
node `m` whose damped velocity plus force is non-zero is moved by the tick. -/
theorem C5_pinned_node_position_fixed (vd : ℚ) (f : ℚ × ℚ) (fsl : List (ℚ × ℚ))
    (ex ey x0 : ℚ) (n m : NetworkNode)
    (hmfx : m.fx = none) (hmx : m.x = some x0)
    (hmv : (m.vx.getD 0 + f.1) * vd ≠ 0) :
    ((runTicks vd (f :: fsl) (dragMove ex ey n)).x = some ex ∧
     (runTicks vd (f :: fsl) (dragMove ex ey n)).y = some ey) ∧
    (tickNode vd f m).x ≠ some x0 := by
  constructor
  · have hfx : (dragMove ex ey n).fx = some ex := rfl
    have hfy : (dragMove ex ey n).fy = some ey := rfl
    have hx := tickNode_pinned_x vd f hfx
    have hy := tickNode_pinned_y vd f hfy
    show (runTicks vd fsl (tickNode vd f (dragMove ex ey n))).x = some ex ∧
      (runTicks vd fsl (tickNode vd f (dragMove ex ey n))).y = some ey
    exact runTicks_pinned vd ex ey fsl _ hx.2 hy.2 hx.1 hy.1
  · have : (tickNode vd f m).x = some (x0 + (m.vx.getD 0 + f.1) * vd) := by
      simp [tickNode, hmfx, hmx]
    rw [this]
    intro hcontra
    exact hmv (by linarith [Option.some.inj hcontra])

/-- The dragged node of the spec's scenario, at its pre-drag position. -/
def dragNode1 : NetworkNode := { id := some (.str "1"), x := some 10, y := some 20 }

/-- The free node of the spec's scenario, carrying some velocity. -/
def freeNode2 : NetworkNode := { id := some (.str "2"), x := some 0, y := some 0, vx := some 1 }

/-- Witness for C5: dragging node `"1"` to `(50, 80)` holds it there over two
ticks, while node `"2"` moves. -/
theorem C5_pinned_node_position_fixed_witness :
    ((runTicks 1 [(1, 0), (0, 0)] (dragMove 50 80 dragNode1)).x = some 50 ∧
     (runTicks 1 [(1, 0), (0, 0)] (dragMove 50 80 dragNode1)).y = some 80) ∧
    (tickNode 1 (1, 0) freeNode2).x ≠ some 0 :=
  C5_pinned_node_position_fixed 1 (1, 0) [(0, 0)] 50 80 0 dragNode1 freeNode2
    rfl rfl (by norm_num [freeNode2])

/-- A configuration whose zoom options request `maxZoom = 5`. -/
def cfgMax5 : VizConfig := { zoomConfig := some { maxZoom := some 5 } }

/-- Counterexample to claim C6: with a configured `maxZoom` of `5`, a zoom
delta whose result would exceed it yields `10` — the hard-coded extent of
`setupZoom` — not the configured `maxZoom`. -/
theorem C6_counterexample_configured_max_ignored :
    (cfgMax5.zoomConfig.map (fun z => z.maxZoom)).getD none = some 5 ∧
    scaleBy (setupZoomExtent cfgMax5) 1 100 = 10 ∧
    scaleBy (setupZoomExtent cfgMax5) 1 100 ≠ 5 := by
  refine ⟨rfl, ?_, ?_⟩ <;> norm_num [scaleBy, setupZoomExtent]

/-- Claim C6 as amended: every zoom operation clamps the scale factor to the
hard-coded extent `[0.1, 10]` that `setupZoom` passes to the behaviour — the
configured `minZoom`/`maxZoom` are not consulted; a delta whose result would
exceed `10` yields exactly `10`, an in-range result is kept as is, and
violating inputs are clamped, never rejected. -/
theorem C6_zoom_clamped_to_hardcoded_extent (cfg : VizConfig) (k factor : ℚ) :
    setupZoomExtent cfg = (1/10, 10) ∧
    1/10 ≤ scaleBy (setupZoomExtent cfg) k factor ∧
    scaleBy (setupZoomExtent cfg) k factor ≤ 10 ∧
    (10 ≤ k * factor → scaleBy (setupZoomExtent cfg) k factor = 10) ∧
    (1/10 ≤ k * factor → k * factor ≤ 10 →
      scaleBy (setupZoomExtent cfg) k factor = k * factor) := by
  refine ⟨rfl, ?_, ?_, ?_, ?_⟩ <;> simp only [setupZoomExtent, scaleBy]
  · exact le_max_left _ _
  · exact max_le (by norm_num) (min_le_left _ _)
  · intro hbig
    rw [min_eq_left hbig]
    exact max_eq_right (by norm_num)
  · intro hlo hhi
    rw [min_eq_right hhi]
    exact max_eq_right hlo

/-- Witness for C6: zooming in from `k = 9` clamps to exactly `10`, and an
in-range zoom from `k = 1` by `1.5` yields `1.5`. -/
theorem C6_zoom_clamped_to_hardcoded_extent_witness :
    scaleBy (setupZoomExtent {}) 9 (3/2) = 10 ∧
    scaleBy (setupZoomExtent {}) 1 (3/2) = 3/2 := by
  constructor
  · exact (C6_zoom_clamped_to_hardcoded_extent {} 9 (3/2)).2.2.2.1 (by norm_num)
  · have h := (C6_zoom_clamped_to_hardcoded_extent {} 1 (3/2)).2.2.2.2
      (by norm_num) (by norm_num)
    rw [h]
    norm_num

/-- Claim C7 (component `fitToView`, early returns): with no positioned node,
or with a degenerate bounding box (zero width or zero height, e.g. a single
point), `fitToView` leaves the current transform unchanged. -/
theorem C7_fit_degenerate_is_noop (w h : ℚ) (cur : ViewTransform) (ns : List NetworkNode) :
    (positionedPoints ns = [] → fitToView w h cur ns = cur) ∧
    (∀ mnx mxx mny mxy : ℚ,
      bboxOf (positionedPoints ns) = some (mnx, mxx, mny, mxy) →
      mxx - mnx = 0 ∨ mxy - mny = 0 →
      fitToView w h cur ns = cur) := by
  constructor
  · intro hempty
    unfold fitToView
    rw [hempty]
    rfl
  · intro mnx mxx mny mxy hbb hdeg
    unfold fitToView
    rw [hbb]
    exact if_pos hdeg

/-- A single positioned node at `(3, 4)`. -/
def singletonNode : NetworkNode := { id := some (.str "a"), x := some 3, y := some 4 }

/-- Witness for C7: a one-point node set leaves the prior transform as is. -/
theorem C7_fit_degenerate_is_noop_witness :
    fitToView 400 300 ⟨2, 5, 7⟩ [singletonNode] = ⟨2, 5, 7⟩ :=
  (C7_fit_degenerate_is_noop 400 300 ⟨2, 5, 7⟩ [singletonNode]).2 3 3 4 4 rfl
    (Or.inl (by norm_num))

/-- Claim C8 (component `fitToView`, main path): for a non-degenerate
bounding box the scale is the minimum of the padded viewport-to-bounds
ratios capped at the maximum fit-zoom `2`, and the resulting transform maps
the bounding-box midpoint to the viewport centre. -/
theorem C8_fit_scale_and_centering (w h : ℚ) (cur : ViewTransform) (ns : List NetworkNode)
    (mnx mxx mny mxy : ℚ)
    (hbb : bboxOf (positionedPoints ns) = some (mnx, mxx, mny, mxy))
    (hbw : mxx - mnx ≠ 0) (hbh : mxy - mny ≠ 0) :
    (fitToView w h cur ns).k =
      min (min ((w - 2 * 50) / (mxx - mnx)) ((h - 2 * 50) / (mxy - mny))) 2 ∧
    (fitToView w h cur ns).k ≤ 2 ∧
    (fitToView w h cur ns).applyT ((mnx + mxx) / 2, (mny + mxy) / 2) = (w / 2, h / 2) := by
  have hcond : ¬(mxx - mnx = 0 ∨ mxy - mny = 0) := by
    push_neg
    exact ⟨hbw, hbh⟩
  have hfit : fitToView w h cur ns =
      ((zoomIdentityT.translateT (w / 2) (h / 2)).scaleT
        (min (min ((w - 50 * 2) / (mxx - mnx)) ((h - 50 * 2) / (mxy - mny))) 2)).translateT
        (-((mnx + mxx) / 2)) (-((mny + mxy) / 2)) := by
    unfold fitToView
    rw [hbb]
    dsimp only
    rw [if_neg hcond]
  rw [hfit]
  refine ⟨?_, ?_, ?_⟩
  · simp only [zoomIdentityT, ViewTransform.translateT, ViewTransform.scaleT, one_mul]
    norm_num
  · simp only [zoomIdentityT, ViewTransform.translateT, ViewTransform.scaleT]
    rw [one_mul]
    exact min_le_right _ _
  · simp only [zoomIdentityT, ViewTransform.translateT, ViewTransform.scaleT,
      ViewTransform.applyT]
    rw [Prod.mk.injEq]
    constructor <;> ring

/-- The spec's two-node scenario: bounds width `100`, height `50`. -/
def fitNodeA : NetworkNode := { id := some (.str "a"), x := some 0, y := some 0 }

/-- Second node of the fit scenario at `(100, 50)`. -/
def fitNodeB : NetworkNode := { id := some (.str "b"), x := some 100, y := some 50 }

/-- Witness for C8: viewport `400×300`, bounds `100×50` → scale exactly `2`
(the cap), and the midpoint `(50, 25)` maps to the centre `(200, 150)`. -/
theorem C8_fit_scale_and_centering_witness :
    (fitToView 400 300 ⟨2, 5, 7⟩ [fitNodeA, fitNodeB]).k = 2 ∧
    (fitToView 400 300 ⟨2, 5, 7⟩ [fitNodeA, fitNodeB]).k ≤ 2 ∧
    (fitToView 400 300 ⟨2, 5, 7⟩ [fitNodeA, fitNodeB]).applyT (50, 25) = (200, 150) := by
  have h := C8_fit_scale_and_centering 400 300 ⟨2, 5, 7⟩ [fitNodeA, fitNodeB] 0 100 0 50 rfl
    (by norm_num) (by norm_num)
  refine ⟨?_, h.2.1, ?_⟩
  · rw [h.1]; norm_num
  · have := h.2.2
    norm_num at this ⊢
    exact this

/-- Counterexample to claim C9: with the component in the error state
(`error = "boom"`), the arrival of new valid data re-renders (`rendered`
becomes true) but the error state does not clear — no write of `null` to the
error signal exists on the data/config update paths. -/
theorem C9_counterexample_error_persists :
    (updateData 800 600 (fun _ => 0) { error := some "boom" }
        ⟨some [nodeNum1], some []⟩).1.error = some "boom" ∧
    (updateData 800 600 (fun _ => 0) { error := some "boom" }
        ⟨some [nodeNum1], some []⟩).1.rendered = true := by
  exact ⟨rfl, rfl⟩

/-- Claim C9 as amended: the visible error state survives the arrival of new
valid data (which re-validates, refreshes the counts and re-renders without
touching the error signal) and survives configuration changes; it clears
only through the explicit `clearError` action. -/
theorem C9_error_cleared_only_explicitly (w h : ℚ) (r : Nat → ℚ) (st : CompState)
    (d : RawNetworkData) (data : NetworkData)
    (hv : (validateNetworkData (some d)).isValid = true) :
    (updateData w h r st d).1.error = st.error ∧
    (updateConfig w h r st data).1.error = st.error ∧
    (clearError st).error = none := by
  refine ⟨?_, rfl, rfl⟩
  rw [updateData]
  simp [hv, renderStep]

/-- Witness for C9 at a concrete valid data update. -/
theorem C9_error_cleared_only_explicitly_witness :
    (updateData 800 600 (fun _ => 0) { error := some "boom" }
        ⟨some [nodeNum1], some []⟩).1.error = some "boom" ∧
    (clearError { error := some "boom" }).error = none := by
  have h := C9_error_cleared_only_explicitly 800 600 (fun _ => 0) { error := some "boom" }
    ⟨some [nodeNum1], some []⟩ ⟨[], []⟩ (by decide)
  exact ⟨h.1, h.2.2⟩

/-- Every node surviving `validateAndSanitizeData` carries a canonical string
id, and its coordinates, when present, come from an input node. -/
theorem vas_nodes_shape {data : NetworkData} {m : NetworkNode}
    (hm : m ∈ (validateAndSanitizeData data).nodes) :
    (∃ c, m.id = some (NodeId.str c)) ∧
    (∀ v, m.x = some v → ∃ n ∈ data.nodes, n.x = some v) ∧
    (∀ v, m.y = some v → ∃ n ∈ data.nodes, n.y = some v) := by
  rcases List.mem_map.1 hm with ⟨n0, hn0, rfl⟩
  rcases List.mem_filter.1 hn0 with ⟨hmem, hkeep⟩
  rcases keepNodeId_isSome hkeep with ⟨i, hi⟩
  refine ⟨⟨i.canon, by simp [normalizeNode, hi]⟩, ?_, ?_⟩
  · intro v hv
    exact ⟨n0, hmem, hv⟩
  · intro v hv
    exact ⟨n0, hmem, hv⟩

/-- Members of `simPrepNodes` are `simPrepNode` images of input nodes. -/
theorem simPrepNodes_mem {w h : ℚ} {r : Nat → ℚ} :
    ∀ (ns : List NetworkNode) (i : Nat) (m : NetworkNode),
      m ∈ simPrepNodes w h r i ns → ∃ j n, n ∈ ns ∧ m = simPrepNode w h r j n
  | [], _, m => by simp [simPrepNodes]
  | n :: rest, i, m => by
    intro hm
    rcases List.mem_cons.1 hm with hl | hr
    · exact ⟨i, n, List.mem_cons_self n rest, hl⟩
    · rcases simPrepNodes_mem rest (i + 1) m hr with ⟨j, n', hn', hm'⟩
      exact ⟨j, n', List.mem_cons_of_mem n hn', hm'⟩

/-- Claim C10 (component `setupSimulation`, node preparation): every node
handed to the force simulation has defined `x` and `y` coordinates — a
missing `x` is drawn from `[0, width)` and a missing `y` from `[0, height)`,
while present coordinates are kept — and every id is a canonical string. -/
theorem C10_sim_nodes_initialized (w h : ℚ) (r : Nat → ℚ) (data : NetworkData)
    (hw : 0 < w) (hh : 0 < h) (hr : ∀ i, 0 ≤ r i ∧ r i < 1) :
    ∀ m ∈ simPrepNodes w h r 0 (validateAndSanitizeData data).nodes,
      (∃ c, m.id = some (NodeId.str c)) ∧
      (∃ v, m.x = some v ∧ ((0 ≤ v ∧ v < w) ∨ ∃ n ∈ data.nodes, n.x = some v)) ∧
      (∃ v, m.y = some v ∧ ((0 ≤ v ∧ v < h) ∨ ∃ n ∈ data.nodes, n.y = some v)) := by
  intro m hm
  rcases simPrepNodes_mem _ _ _ hm with ⟨j, n, hn, rfl⟩
  rcases vas_nodes_shape hn with ⟨⟨c, hc⟩, hx, hy⟩
  refine ⟨⟨c, by simp [simPrepNode, hc, NodeId.canon]⟩, ?_, ?_⟩
  · refine ⟨n.x.getD (r (2 * j) * w), by simp [simPrepNode], ?_⟩
    cases hxv : n.x with
    | some v => exact Or.inr (by simpa [hxv] using hx v hxv)
    | none =>
      refine Or.inl ⟨mul_nonneg (hr (2 * j)).1 hw.le, ?_⟩
      simpa using mul_lt_mul_of_pos_right (hr (2 * j)).2 hw
  · refine ⟨n.y.getD (r (2 * j + 1) * h), by simp [simPrepNode], ?_⟩
    cases hyv : n.y with
    | some v => exact Or.inr (by simpa [hyv] using hy v hyv)
    | none =>
      refine Or.inl ⟨mul_nonneg (hr (2 * j + 1)).1 hh.le, ?_⟩
      simpa using mul_lt_mul_of_pos_right (hr (2 * j + 1)).2 hh

/-- A node with the numeric id `1` and preset coordinates `(7, 9)`. -/
def posNode1 : NetworkNode := { id := some (.num 1), x := some 7, y := some 9 }

/-- The prepared form of `posNode1`. -/
def preppedNode1 : NetworkNode := { id := some (.str "1"), x := some 7, y := some 9 }

/-- Witness for C10 at a one-node graph with preset coordinates. -/
theorem C10_sim_nodes_initialized_witness :
    (∃ c, preppedNode1.id = some (NodeId.str c)) ∧
    (∃ v, preppedNode1.x = some v ∧
      ((0 ≤ v ∧ v < 800) ∨ ∃ n ∈ ([posNode1] : List NetworkNode), n.x = some v)) ∧
    (∃ v, preppedNode1.y = some v ∧
      ((0 ≤ v ∧ v < 600) ∨ ∃ n ∈ ([posNode1] : List NetworkNode), n.y = some v)) :=
  C10_sim_nodes_initialized 800 600 (fun _ => 1/2) ⟨[posNode1], []⟩
    (by norm_num) (by norm_num) (fun _ => by norm_num)
    preppedNode1 (by decide)

/-- The `nodeIds` set accumulated by the data service's node loop holds
exactly the starting set plus every raw id occurring in the node list. -/
theorem mem_validateNodesLoop_seen :
    ∀ (ns : List NetworkNode) (i : Nat) (seen : List NodeId) (errs warns : List String)
      (x : NodeId),
      x ∈ (validateNodesLoop i seen errs warns ns).1 ↔
        x ∈ seen ∨ ∃ n ∈ ns, n.id = some x
  | [], i, seen, errs, warns, x => by simp [validateNodesLoop]
  | n :: rest, i, seen, errs, warns, x => by
    cases hid : n.id with
    | none =>
      simp only [validateNodesLoop, hid]
      rw [mem_validateNodesLoop_seen rest (i + 1) seen _ warns x]
      simp [hid]
    | some nid =>
      simp only [validateNodesLoop, hid]
      by_cases hmem : nid ∈ seen
      · rw [if_pos hmem, if_pos hmem,
          mem_validateNodesLoop_seen rest (i + 1) seen _ _ x]
        simp only [List.mem_cons]
        constructor
        · rintro (hs | ⟨m, hm, hmid⟩)
          · exact Or.inl hs
          · exact Or.inr ⟨m, Or.inr hm, hmid⟩
        · rintro (hs | ⟨m, hm | hm, hmid⟩)
          · exact Or.inl hs
          · subst hm
            rw [hid] at hmid
            cases Option.some.inj hmid
            exact Or.inl hmem
          · exact Or.inr ⟨m, hm, hmid⟩
      · rw [if_neg hmem, if_neg hmem,
          mem_validateNodesLoop_seen rest (i + 1) (seen ++ [nid]) _ _ x]
        simp only [List.mem_append, List.mem_cons, List.not_mem_nil, or_false]
        constructor
        · rintro ((hs | hx) | ⟨m, hm, hmid⟩)
          · exact Or.inl hs
          · exact Or.inr ⟨n, Or.inl rfl, by rw [hid, hx]⟩
          · exact Or.inr ⟨m, Or.inr hm, hmid⟩
        · rintro (hs | ⟨m, hm | hm, hmid⟩)
          · exact Or.inl (Or.inl hs)
          · subst hm
            rw [hid] at hmid
            cases Option.some.inj hmid
            exact Or.inl (Or.inr rfl)
          · exact Or.inr ⟨m, hm, hmid⟩

/-- The link loop never empties an already non-empty error list. -/
theorem validateLinksLoop_errors_nonempty (seen : List NodeId) :
    ∀ (ls : List NetworkLink) (i : Nat) (errs warns : List String),
      errs ≠ [] → (validateLinksLoop seen i errs warns ls).1 ≠ []
  | [], i, errs, warns => fun hne => hne
  | l :: rest, i, errs, warns => fun hne => by
    simp only [validateLinksLoop]
    apply validateLinksLoop_errors_nonempty seen rest (i + 1)
    intro hcontra
    exact hne (List.append_eq_nil.1 (List.append_eq_nil.1 hcontra).1).1

/-- A link with an unresolvable endpoint forces the link loop to report at
least one error. -/
theorem validateLinksLoop_dangling (seen : List NodeId) :
    ∀ (ls : List NetworkLink) (i : Nat) (errs warns : List String),
      (∃ l ∈ ls, l.source.endId ∉ seen ∨ l.target.endId ∉ seen) →
      (validateLinksLoop seen i errs warns ls).1 ≠ []
  | [], i, errs, warns => by simp
  | l :: rest, i, errs, warns => by
    rintro ⟨l', hl', hor⟩
    rcases List.mem_cons.1 hl' with rfl | hmem
    · simp only [validateLinksLoop]
      apply validateLinksLoop_errors_nonempty
      rcases hor with hs | ht
      · rw [if_neg hs]
        intro hcontra
        have h1 := (List.append_eq_nil.1 (List.append_eq_nil.1 hcontra).1).2
        simp at h1
      · rw [if_neg ht]
        intro hcontra
        have h1 := (List.append_eq_nil.1 hcontra).2
        simp at h1
    · simp only [validateLinksLoop]
      exact validateLinksLoop_dangling seen rest (i + 1) _ _ ⟨l', hmem, hor⟩

/-- Counterexample to claim C2: for the spec's scenario graph
`{nodes:[{id:1}], links:[{source:1,target:99}]}` the data service reports the
dangling link as an **error** (no warning at all), so `initializeVisualization`
hard-fails into the error state, renders nothing, and hands no links to the
solver — the link is not dropped with a warning. -/
theorem C2_counterexample_dangling_link_hard_fails :
    (validateNetworkData (some dataDangling)).errors =
      ["Link 0 references non-existent target node: 99"] ∧
    (validateNetworkData (some dataDangling)).warnings = [] ∧
    (initializeVisualization 800 600 (fun _ => 0) (some dataDangling)).1.error =
      some "Data validation failed: Link 0 references non-existent target node: 99" ∧
    (initializeVisualization 800 600 (fun _ => 0) (some dataDangling)).1.rendered = false ∧
    (initializeVisualization 800 600 (fun _ => 0) (some dataDangling)).2 = [] := by
  refine ⟨?_, ?_, ?_, ?_, ?_⟩ <;> rfl

/-- Claim C2 as amended: a link whose source or target resolves to no node's
raw id makes `validateNetworkData` fail (the message goes to `errors`, not
`warnings`), so `initializeVisualization` enters the error state without
rendering and zero links reach the solver; a missing top-level node
collection also hard-fails. -/
theorem C2_dangling_link_is_validation_error (w h : ℚ) (r : Nat → ℚ)
    (ns : List NetworkNode) (ls : List NetworkLink)
    (hdangling : ∃ l ∈ ls,
      (¬ ∃ n ∈ ns, n.id = some l.source.endId) ∨
      (¬ ∃ n ∈ ns, n.id = some l.target.endId)) :
    (validateNetworkData (some ⟨some ns, some ls⟩)).isValid = false ∧
    (initializeVisualization w h r (some ⟨some ns, some ls⟩)).1.error.isSome = true ∧
    (initializeVisualization w h r (some ⟨some ns, some ls⟩)).1.rendered = false ∧
    (initializeVisualization w h r (some ⟨some ns, some ls⟩)).2 = [] ∧
    (∀ lso, (initializeVisualization w h r (some ⟨none, lso⟩)).1.error.isSome = true) := by
  have herr : (validateCore ns ls).errors ≠ [] := by
    simp only [validateCore]
    apply validateLinksLoop_dangling
    rcases hdangling with ⟨l, hl, hor⟩
    refine ⟨l, hl, ?_⟩
    rcases hor with hs | ht
    · refine Or.inl (fun hmem => hs ?_)
      simpa using (mem_validateNodesLoop_seen ns 0 [] [] [] _).1 hmem
    · refine Or.inr (fun hmem => ht ?_)
      simpa using (mem_validateNodesLoop_seen ns 0 [] [] [] _).1 hmem
  have hval : validateNetworkData (some ⟨some ns, some ls⟩) = validateCore ns ls := rfl
  cases hE : (validateCore ns ls).errors with
  | nil => exact absurd hE herr
  | cons e es =>
    have hvalid : (validateNetworkData (some ⟨some ns, some ls⟩)).isValid = false := by
      rw [hval]
      show (validateCore ns ls).errors.isEmpty = false
      rw [hE]
      rfl
    have hinit : initializeVisualization w h r (some ⟨some ns, some ls⟩) =
        (let j := String.intercalate ", " (e :: es)
         (handleError {} s!"Data validation failed: {j}", [])) := by
      simp only [initializeVisualization, Option.isNone_some, Bool.or_self, Bool.false_eq_true,
        if_false, hval, hE]
      rfl
    refine ⟨hvalid, ?_, ?_, ?_, ?_⟩
    · rw [hinit]; rfl
    · rw [hinit]; rfl
    · rw [hinit]
    · intro lso
      rfl

/-- Witness for C2's amended claim at the spec's scenario graph. -/
theorem C2_dangling_link_is_validation_error_witness :
    (validateNetworkData (some dataDangling)).isValid = false ∧
    (initializeVisualization 800 600 (fun _ => 0) (some dataDangling)).1.error.isSome = true := by
  have h := C2_dangling_link_is_validation_error 800 600 (fun _ => 0) [nodeNum1] [linkDangling]
    ⟨linkDangling, by simp, Or.inr (by decide)⟩
  exact ⟨h.1, h.2.1⟩

/-- Counterexample to claim C3: the ids `1` (number) and `"1"` (string)
normalise to the same canonical string, yet the data service's duplicate
check (raw-id set) reports no duplicate and `validateAndSanitizeData` keeps
both nodes — after normalisation the graph holds two nodes with the same
canonical id `"1"` instead of at most one. -/
theorem C3_counterexample_mixed_type_duplicate_kept :
    nodeNum1.id ≠ nodeStr1.id ∧
    nodeNum1.id.map NodeId.canon = nodeStr1.id.map NodeId.canon ∧
    (validateNetworkData (some ⟨some [nodeNum1, nodeStr1], some []⟩)).errors = [] ∧
    (validateAndSanitizeData ⟨[nodeNum1, nodeStr1], []⟩).nodes.length = 2 ∧
    (validateAndSanitizeData ⟨[nodeNum1, nodeStr1], []⟩).nodes.map (fun n => n.id) =
      [some (.str "1"), some (.str "1")] := by
  refine ⟨?_, ?_, ?_, ?_, ?_⟩ <;> decide

/-- Claim C3 as amended: the duplicate check of `validateNetworkData`
compares raw identifiers with no normalisation, so two distinct raw ids with
the same canonical string (the number `1` and the string `"1"`) are treated
as different nodes — no duplicate is reported and both survive
`validateAndSanitizeData`, each carrying the same canonical string id; only
a raw-equal repeated id is flagged, and then as a validation error rather
than a drop of the later node. -/
theorem C3_duplicate_check_uses_raw_ids (a b : NodeId) (hne : a ≠ b)
    (hcanon : a.canon = b.canon) (ha : keepNodeId (some a) = true)
    (hb : keepNodeId (some b) = true) :
    ((validateAndSanitizeData ⟨[{ id := some a }, { id := some b }], []⟩).nodes.map
        (fun n => n.id)) = [some (.str a.canon), some (.str a.canon)] ∧
    (validateNetworkData (some ⟨some [{ id := some a }, { id := some b }], some []⟩)).errors
      = [] ∧
    (validateNetworkData (some ⟨some [{ id := some a }, { id := some a }], some []⟩)).errors
      ≠ [] := by
  have hba : b ≠ a := hne.symm
  refine ⟨?_, ?_, ?_⟩
  · simp [validateAndSanitizeData, ha, hb, normalizeNode, hcanon]
  · show (validateCore [{ id := some a }, { id := some b }] []).errors = []
    simp [validateCore, validateNodesLoop, validateLinksLoop, nodeWarnings, hba]
  · show (validateCore [{ id := some a }, { id := some a }] []).errors ≠ []
    simp [validateCore, validateNodesLoop, validateLinksLoop, nodeWarnings]

/-- Witness for C3's amended claim at the ids `1` and `"1"`. -/
theorem C3_duplicate_check_uses_raw_ids_witness :
    ((validateAndSanitizeData ⟨[nodeNum1, nodeStr1], []⟩).nodes.map (fun n => n.id)) =
      [some (.str "1"), some (.str "1")] ∧
    (validateNetworkData (some ⟨some [nodeNum1, nodeNum1], some []⟩)).errors ≠ [] := by
  have h := C3_duplicate_check_uses_raw_ids (.num 1) (.str "1") (by decide) (by decide)
    rfl rfl
  exact ⟨h.1, h.2.2⟩

end NetworkViz
